import Mathlib

/-
Verification development for the two scripts of this repository:
public/cors-proxy.py (a CORS-relaxing forwarding proxy) and
public/serve.py (a static file server with a port-scan helper).

The embedding is shallow. Pure string manipulation from the Python standard
library (urllib.parse.urlparse, urllib.parse.parse_qs, str.split, str.endswith,
substring containment, percent decoding) is translated to executable Lean
functions over character lists. The response-producing primitives of
http.server.BaseHTTPRequestHandler (send_response, send_header, wfile.write,
send_error) are modelled as explicit state passing over a HandlerState record
that accumulates the status, the emitted headers in order, and the body bytes.
External effects are oracles passed as function arguments: the outbound
urllib.request.urlopen call becomes a function returning an UpstreamResult,
the library error page template becomes a function producing body bytes, the
operating system bind test becomes a Nat to Bool oracle, and the inherited
guess_type of SimpleHTTPRequestHandler becomes a function argument.
-/

set_option maxRecDepth 8000

/-- Boolean test that the first character list is an initial segment of the
second, the elementary comparison used below for substring search and for
the str.endswith model. -/
def leadsWith : List Char → List Char → Bool
  | [], _ => true
  | _ :: _, [] => false
  | a :: as, b :: bs => a == b && leadsWith as bs

/-- Helper for strIn: scans the haystack left to right. -/
def strInL (needle : List Char) : List Char → Bool
  | [] => leadsWith needle []
  | c :: rest => leadsWith needle (c :: rest) || strInL needle rest

/-- Substring containment, modelling the Python expression needle in haystack
for strings (case-sensitive). -/
def strIn (needle haystack : String) : Bool :=
  strInL needle.toList haystack.toList

/-- Model of Python str.endswith for a literal suffix: the reversed suffix is
an initial segment of the reversed string. -/
def endsWithS (s suffixStr : String) : Bool :=
  leadsWith suffixStr.toList.reverse s.toList.reverse

/-- Split a character list on every occurrence of the separator, modelling
Python str.split with a one-character separator (never returns an empty
list of groups). -/
def splitOnChar (sep : Char) : List Char → List (List Char)
  | [] => [[]]
  | c :: rest =>
    if c == sep then [] :: splitOnChar sep rest
    else
      match splitOnChar sep rest with
      | [] => [[c]]
      | g :: gs => (c :: g) :: gs

/-- Split at the first occurrence of the separator, modelling Python
str.split(sep, 1): the part before, and the part after when the separator
occurs at all. -/
def splitOnce (sep : Char) : List Char → List Char × Option (List Char)
  | [] => ([], none)
  | c :: rest =>
    if c == sep then ([], some rest)
    else
      let p := splitOnce sep rest
      (c :: p.1, p.2)

/-- Numeric value of a hexadecimal digit, as used by percent decoding. -/
def hexVal (c : Char) : Option Nat :=
  if '0' ≤ c ∧ c ≤ '9' then some (c.toNat - '0'.toNat)
  else if 'a' ≤ c ∧ c ≤ 'f' then some (c.toNat - 'a'.toNat + 10)
  else if 'A' ≤ c ∧ c ≤ 'F' then some (c.toNat - 'A'.toNat + 10)
  else none

/-- Percent decoding, modelling urllib.parse.unquote on ASCII data: a percent
sign followed by two hexadecimal digits becomes the coded character, and a
malformed escape is kept literally. -/
def pctDecode : List Char → List Char
  | [] => []
  | '%' :: a :: b :: rest =>
    match hexVal a, hexVal b with
    | some x, some y => Char.ofNat (16 * x + y) :: pctDecode rest
    | _, _ => '%' :: pctDecode (a :: b :: rest)
  | c :: rest => c :: pctDecode rest

/-- The name and value decoding step of urllib.parse.parse_qsl: plus signs
become spaces, then percent escapes are decoded. -/
def unqPlus (l : List Char) : String :=
  String.mk (pctDecode (l.map fun c => if c == '+' then ' ' else c))

/-- The query component of a request path, modelling urllib.parse.urlparse:
the fragment (everything from the first hash sign on) is stripped first, and
the query is everything after the first question mark of what remains, empty
when there is no question mark. -/
def urlparseQuery (path : String) : List Char :=
  let noFrag := (splitOnce '#' path.toList).1
  match (splitOnce '?' noFrag).2 with
  | none => []
  | some q => q

/-- Key-value pairs of a query string, modelling urllib.parse.parse_qsl with
its default arguments: fields are split on the ampersand, an empty field is
skipped, a field with no equals sign is skipped, a field with an empty value
is skipped (keep_blank_values defaults to false), and names and values are
plus-replaced and percent-decoded. -/
def parse_qsl (qs : List Char) : List (String × String) :=
  (splitOnChar '&' qs).filterMap fun nv =>
    if nv.isEmpty then none
    else
      match splitOnce '=' nv with
      | (_, none) => none
      | (n, some v) => if v.isEmpty then none else some (unqPlus n, unqPlus v)

/-- The ordered value list that urllib.parse.parse_qs stores for one key: the
key is in the parse_qs dictionary exactly when this list is nonempty, and
index zero of the dictionary entry is the head of this list. -/
def qsGet (qs : List Char) (key : String) : List String :=
  (parse_qsl qs).filterMap fun p => if p.1 = key then some p.2 else none

/-- Outcome of the outbound urllib.request.urlopen call in do_GET: a
successful response carrying body bytes and an optional content-type header,
an HTTPError carrying its status code, a URLError, or any other exception
(which also covers a failure while constructing the Request object). -/
inductive UpstreamResult where
  | success (data : List Nat) (contentType : Option String)
  | httpError (code : Nat)
  | urlError
  | otherError
deriving DecidableEq

/-- Response state accumulated by the BaseHTTPRequestHandler send primitives
while one handler method runs: the status set by send_response, the headers
emitted by send_header in order, and the body bytes written to wfile. -/
structure HandlerState where
  status : Option Nat
  headers : List (String × String)
  body : List Nat
deriving DecidableEq

/-- The state before any send primitive has run. -/
def initialState : HandlerState :=
  { status := none, headers := [], body := [] }

/-- Model of BaseHTTPRequestHandler.send_response: records the status code. -/
def send_response (code : Nat) (s : HandlerState) : HandlerState :=
  { s with status := some code }

/-- Model of BaseHTTPRequestHandler.send_header: appends one header. -/
def send_header (k v : String) (s : HandlerState) : HandlerState :=
  { s with headers := s.headers ++ [(k, v)] }

/-- Model of a wfile.write call: appends bytes to the response body. -/
def wfile_write (d : List Nat) (s : HandlerState) : HandlerState :=
  { s with body := s.body ++ d }

/-- Model of BaseHTTPRequestHandler.send_error, which CORSProxyHandler does
not override: it sets the status, emits a Connection close header, the error
content type, a content length, and writes the HTML error page produced by
the library template (passed in as errPage, since its text lives in the
standard library). It emits no Access-Control-Allow-Origin header. -/
def send_error (errPage : Nat → String → List Nat) (code : Nat)
    (message : String) (s : HandlerState) : HandlerState :=
  let body := errPage code message
  s |> send_response code
    |> send_header "Connection" "close"
    |> send_header "Content-Type" "text/html;charset=utf-8"
    |> send_header "Content-Length" (toString body.length)
    |> wfile_write body

/-- The outbound request headers chosen by do_GET from the target URL (lines
38 to 50 of cors-proxy.py): a fixed User-Agent entry, then API key entries
added by the first matching substring branch of the if-elif chain. -/
def buildHeaders (target_url : String) : List (String × String) :=
  let headers := [("User-Agent", "IBY-NFL-Analytics/1.0")]
  if strIn "the-odds-api.com" target_url then
    headers
  else if strIn "api-sports.io" target_url then
    headers ++ [("x-rapidapi-key", "47647545b8ddeb4b557a8482be930f09"),
                ("x-rapidapi-host", "v1.american-football.api-sports.io")]
  else if strIn "sportsradar.com" target_url then
    headers ++ [("X-RapidAPI-Key", "YOUR_SPORTSRADAR_KEY")]
  else
    headers

/-- Model of CORSProxyHandler.do_OPTIONS: status 200, the three CORS headers,
and no body. It is a pure constant: the handler performs no other effect and
has no failure path. -/
def do_OPTIONS : HandlerState :=
  initialState
    |> send_response 200
    |> send_header "Access-Control-Allow-Origin" "*"
    |> send_header "Access-Control-Allow-Methods" "GET, POST, OPTIONS"
    |> send_header "Access-Control-Allow-Headers"
        "Content-Type, Authorization, X-RapidAPI-Key, X-RapidAPI-Host, X-API-Key"

/-- Model of CORSProxyHandler.do_GET. fetch is the oracle for the outbound
call (urllib.request.urlopen on the built Request, classified into the four
UpstreamResult outcomes that the except clauses distinguish), and errPage is
the library error page template used by send_error. The result is the
response state together with the outbound request issued (target URL and
header list), none when no upstream request was made. The Python handler
catches HTTPError, URLError and Exception around the whole body, so do_GET
is a total function: no exception propagates and the process does not
crash. -/
def do_GET (fetch : String → List (String × String) → UpstreamResult)
    (errPage : Nat → String → List Nat) (path : String) :
    HandlerState × Option (String × List (String × String)) :=
  match qsGet (urlparseQuery path) "url" with
  | [] => (send_error errPage 400 "Missing url parameter" initialState, none)
  | target_url :: _ =>
    let headers := buildHeaders target_url
    match fetch target_url headers with
    | .success data ct =>
      (initialState
        |> send_response 200
        |> send_header "Access-Control-Allow-Origin" "*"
        |> send_header "Content-Type" (ct.getD "application/json")
        |> wfile_write data,
       some (target_url, headers))
    | .httpError code =>
      (initialState
        |> send_response code
        |> send_header "Access-Control-Allow-Origin" "*",
       some (target_url, headers))
    | .urlError =>
      (initialState
        |> send_response 500
        |> send_header "Access-Control-Allow-Origin" "*",
       some (target_url, headers))
    | .otherError =>
      (initialState
        |> send_response 500
        |> send_header "Access-Control-Allow-Origin" "*",
       some (target_url, headers))

/-- Python tuple unpacking of a string into two assignment targets, as in the
statement that unpacks the inherited guess_type result: a string iterates
into its characters, so the unpacking succeeds exactly when the string has
exactly two characters, binding the two one-character strings; any other
length raises ValueError, modelled as none. -/
def unpackTwo (s : String) : Option (String × String) :=
  match s.toList with
  | [a, b] => some (String.mk [a], String.mk [b])
  | _ => none

/-- Model of IBYHTTPRequestHandler.guess_type from serve.py. inherited is the
guess_type of the parent SimpleHTTPRequestHandler, which returns a bare
mimetype string, not a pair. The override starts by unpacking that string
into the two names mimetype and encoding, which raises ValueError (none)
unless the string has exactly two characters; only on that unlikely success
do the three extension checks run, in source order, with the inherited pair
returned unchanged when none matches. -/
def guess_type (inherited : String → String) (path : String) :
    Option (String × String) :=
  match unpackTwo (inherited path) with
  | none => none
  | some (mimetype, encoding) =>
    if endsWithS path ".html" then some ("text/html", encoding)
    else if endsWithS path ".css" then some ("text/css", encoding)
    else if endsWithS path ".js" then some ("application/javascript", encoding)
    else some (mimetype, encoding)

/-- Result of find_available_port: a port, or the RuntimeError raised after
the loop exhausts its range. -/
inductive PortResult where
  | found (port : Nat)
  | runtimeError
deriving DecidableEq

/-- The linear scan inside find_available_port: starting at the given port,
try at most the given number of consecutive ports against the bind oracle
and return the first accepted one. -/
def findLoop (canBind : Nat → Bool) : Nat → Nat → Option Nat
  | _, 0 => none
  | port, Nat.succ n => if canBind port then some port else findLoop canBind (port + 1) n

/-- Model of serve.find_available_port. canBind is the oracle for whether a
localhost TCP socket can be bound to a port (the bind call inside the with
block, whose OSError is caught by the loop); the Python code iterates over
range(start_port, start_port + 100) and raises RuntimeError after the loop
ends without a successful bind. -/
def find_available_port (canBind : Nat → Bool) (start_port : Nat) : PortResult :=
  match findLoop canBind start_port 100 with
  | some p => PortResult.found p
  | none => PortResult.runtimeError

/-- The ports the loop actually probes with a bind attempt, in order: the
scan stops at the first success, and every probe lies in the scanned
range. -/
def probedPorts (canBind : Nat → Bool) : Nat → Nat → List Nat
  | _, 0 => []
  | port, Nat.succ n =>
    if canBind port then [port] else port :: probedPorts canBind (port + 1) n

/-- Shared fact: whenever the query carries at least one url value, do_GET
issues exactly one outbound request, to the first value, with the headers
built from it, whatever the upstream outcome is. -/
lemma do_GET_outbound (fetch : String → List (String × String) → UpstreamResult)
    (errPage : Nat → String → List Nat) (path target_url : String) (rest : List String)
    (hq : qsGet (urlparseQuery path) "url" = target_url :: rest) :
    (do_GET fetch errPage path).2 = some (target_url, buildHeaders target_url) := by
  cases hf : fetch target_url (buildHeaders target_url) <;>
    simp [do_GET, hq, hf]

/-- C6: for every OPTIONS request, do_OPTIONS responds with status 200, an
empty body, and exactly the three enumerated CORS headers, in source order.
It is a constant function, so it has no other effect and no failure path. -/
theorem do_OPTIONS_spec :
    do_OPTIONS.status = some 200 ∧ do_OPTIONS.body = [] ∧
    do_OPTIONS.headers =
      [("Access-Control-Allow-Origin", "*"),
       ("Access-Control-Allow-Methods", "GET, POST, OPTIONS"),
       ("Access-Control-Allow-Headers",
        "Content-Type, Authorization, X-RapidAPI-Key, X-RapidAPI-Host, X-API-Key")] :=
  ⟨rfl, rfl, rfl⟩

/-- C5: for every successful upstream response, do_GET relays status 200, a
byte-identical body, the permissive CORS header, and a Content-Type equal to
the upstream content type when the upstream supplies one and equal to
application/json otherwise. -/
theorem success_relay_spec
    (fetch : String → List (String × String) → UpstreamResult)
    (errPage : Nat → String → List Nat) (path target_url : String)
    (rest : List String) (data : List Nat) (ct : Option String)
    (hq : qsGet (urlparseQuery path) "url" = target_url :: rest)
    (hf : fetch target_url (buildHeaders target_url) = UpstreamResult.success data ct) :
    (do_GET fetch errPage path).1.status = some 200 ∧
    (do_GET fetch errPage path).1.body = data ∧
    ("Access-Control-Allow-Origin", "*") ∈ (do_GET fetch errPage path).1.headers ∧
    (∀ s, ct = some s → ("Content-Type", s) ∈ (do_GET fetch errPage path).1.headers) ∧
    (ct = none → ("Content-Type", "application/json") ∈ (do_GET fetch errPage path).1.headers) := by
  simp only [do_GET, hq, hf]
  refine ⟨rfl, by simp [send_response, send_header, wfile_write, initialState], ?_, ?_, ?_⟩
  · simp [send_response, send_header, wfile_write, initialState]
  · intro s hs
    simp [send_response, send_header, wfile_write, initialState, hs]
  · intro hn
    simp [send_response, send_header, wfile_write, initialState, hn]

/-- C4: every forwarding failure is caught inside do_GET. An upstream
HTTPError is relayed with its own status code, a URLError yields status 500,
and any other exception yields status 500; in all three cases the response
carries the permissive CORS header. do_GET is a total function, so no
exception propagates out of the handler. -/
theorem error_paths_spec
    (fetch : String → List (String × String) → UpstreamResult)
    (errPage : Nat → String → List Nat) (path target_url : String)
    (rest : List String)
    (hq : qsGet (urlparseQuery path) "url" = target_url :: rest) :
    (∀ code, fetch target_url (buildHeaders target_url) = UpstreamResult.httpError code →
       (do_GET fetch errPage path).1.status = some code ∧
       ("Access-Control-Allow-Origin", "*") ∈ (do_GET fetch errPage path).1.headers) ∧
    (fetch target_url (buildHeaders target_url) = UpstreamResult.urlError →
       (do_GET fetch errPage path).1.status = some 500 ∧
       ("Access-Control-Allow-Origin", "*") ∈ (do_GET fetch errPage path).1.headers) ∧
    (fetch target_url (buildHeaders target_url) = UpstreamResult.otherError →
       (do_GET fetch errPage path).1.status = some 500 ∧
       ("Access-Control-Allow-Origin", "*") ∈ (do_GET fetch errPage path).1.headers) := by
  refine ⟨?_, ?_, ?_⟩
  · intro code hf
    simp [do_GET, hq, hf, send_response, send_header, initialState]
  · intro hf
    simp [do_GET, hq, hf, send_response, send_header, initialState]
  · intro hf
    simp [do_GET, hq, hf, send_response, send_header, initialState]

/-- C7: when the target URL contains none of the three rule substrings, the
outbound request carries exactly the single default User-Agent header. -/
theorem default_headers_spec
    (fetch : String → List (String × String) → UpstreamResult)
    (errPage : Nat → String → List Nat) (path target_url : String)
    (rest : List String)
    (hq : qsGet (urlparseQuery path) "url" = target_url :: rest)
    (h1 : strIn "the-odds-api.com" target_url = false)
    (h2 : strIn "api-sports.io" target_url = false)
    (h3 : strIn "sportsradar.com" target_url = false) :
    (do_GET fetch errPage path).2 =
      some (target_url, [("User-Agent", "IBY-NFL-Analytics/1.0")]) := by
  have hb : buildHeaders target_url = [("User-Agent", "IBY-NFL-Analytics/1.0")] := by
    simp [buildHeaders, h1, h2, h3]
  rw [do_GET_outbound fetch errPage path target_url rest hq, hb]

/-- C8: the target URL is the first url value of the query string; later
occurrences are ignored, so two paths whose url value lists share the same
head produce identical results. -/
theorem first_url_occurrence_spec
    (fetch : String → List (String × String) → UpstreamResult)
    (errPage : Nat → String → List Nat) (path path' target_url : String)
    (rest rest' : List String)
    (hq : qsGet (urlparseQuery path) "url" = target_url :: rest)
    (hq' : qsGet (urlparseQuery path') "url" = target_url :: rest') :
    (do_GET fetch errPage path).2 = some (target_url, buildHeaders target_url) ∧
    do_GET fetch errPage path = do_GET fetch errPage path' := by
  refine ⟨do_GET_outbound fetch errPage path target_url rest hq, ?_⟩
  cases hf : fetch target_url (buildHeaders target_url) <;>
    simp [do_GET, hq, hq', hf]

/-- C1 counterexample: on the concrete path with no url parameter, do_GET
responds 400 and issues no upstream request, but the response does not carry
the Access-Control-Allow-Origin header, because the handler uses the
library send_error, which it does not override; so the claim as stated is
false at this input. -/
theorem missing_url_counterexample :
    (do_GET (fun _ _ => UpstreamResult.otherError) (fun _ _ => []) "/").1.status = some 400 ∧
    (do_GET (fun _ _ => UpstreamResult.otherError) (fun _ _ => []) "/").2 = none ∧
    ("Access-Control-Allow-Origin", "*") ∉
      (do_GET (fun _ _ => UpstreamResult.otherError) (fun _ _ => []) "/").1.headers := by
  decide

/-- C1 amended: for every GET request whose query string lacks the url
parameter, do_GET responds with status 400 and issues no upstream request,
and the response does not carry the Access-Control-Allow-Origin header. -/
theorem missing_url_amended
    (fetch : String → List (String × String) → UpstreamResult)
    (errPage : Nat → String → List Nat) (path : String)
    (hq : qsGet (urlparseQuery path) "url" = []) :
    (do_GET fetch errPage path).1.status = some 400 ∧
    (do_GET fetch errPage path).2 = none ∧
    ("Access-Control-Allow-Origin", "*") ∉ (do_GET fetch errPage path).1.headers := by
  have hred : do_GET fetch errPage path =
      (send_error errPage 400 "Missing url parameter" initialState, none) := by
    simp [do_GET, hq]
  rw [hred]
  refine ⟨rfl, rfl, ?_⟩
  intro hmem
  simp only [send_error, send_response, send_header, wfile_write, initialState,
    List.nil_append, List.append_assoc, List.cons_append, List.mem_cons,
    List.not_mem_nil, or_false, List.mem_append, List.mem_singleton] at hmem
  rcases hmem with h | h | h <;>
    · injection h with h1 h2
      exact absurd h1 (by decide)

/-- C1 amended witness at a concrete input. -/
theorem missing_url_amended_witness :
    (do_GET (fun _ _ => UpstreamResult.success [1] none) (fun _ _ => [2]) "/index.html").1.status = some 400 ∧
    (do_GET (fun _ _ => UpstreamResult.success [1] none) (fun _ _ => [2]) "/index.html").2 = none ∧
    ("Access-Control-Allow-Origin", "*") ∉
      (do_GET (fun _ _ => UpstreamResult.success [1] none) (fun _ _ => [2]) "/index.html").1.headers :=
  missing_url_amended (fun _ _ => UpstreamResult.success [1] none) (fun _ _ => [2])
    "/index.html" (by decide)

/-- C2 counterexample: the missing-parameter response is produced by the
handler yet does not carry the Access-Control-Allow-Origin header, so the
claim that every response carries it is false at this input. -/
theorem cors_header_counterexample :
    ("Access-Control-Allow-Origin", "*") ∉
      (do_GET (fun _ _ => UpstreamResult.success [] none) (fun _ _ => [7]) "/games").1.headers := by
  decide

/-- C2 amended: every response of do_OPTIONS, and every response of do_GET
for a request that does carry a url query parameter (successful forwards and
all three caught error outcomes alike), carries the header
Access-Control-Allow-Origin with value star; the missing-parameter 400
response is the one exception. -/
theorem cors_header_amended
    (fetch : String → List (String × String) → UpstreamResult)
    (errPage : Nat → String → List Nat) (path : String) :
    ("Access-Control-Allow-Origin", "*") ∈ do_OPTIONS.headers ∧
    (qsGet (urlparseQuery path) "url" ≠ [] →
      ("Access-Control-Allow-Origin", "*") ∈ (do_GET fetch errPage path).1.headers) := by
  constructor
  · simp [do_OPTIONS, send_response, send_header, initialState]
  · intro hne
    cases hq : qsGet (urlparseQuery path) "url" with
    | nil => exact absurd hq hne
    | cons target_url rest =>
      cases hf : fetch target_url (buildHeaders target_url) <;>
        simp [do_GET, hq, hf, send_response, send_header, wfile_write, initialState]

/-- C2 amended witness at a concrete input. -/
theorem cors_header_amended_witness :
    ("Access-Control-Allow-Origin", "*") ∈ do_OPTIONS.headers ∧
    ("Access-Control-Allow-Origin", "*") ∈
      (do_GET (fun _ _ => UpstreamResult.httpError 429) (fun _ _ => [])
        "/?url=https://example.com/data").1.headers :=
  ⟨(cors_header_amended (fun _ _ => UpstreamResult.httpError 429) (fun _ _ => [])
      "/?url=https://example.com/data").1,
   (cors_header_amended (fun _ _ => UpstreamResult.httpError 429) (fun _ _ => [])
      "/?url=https://example.com/data").2 (by decide)⟩

/-- C3 counterexample: a target URL that contains api-sports.io but also
contains the-odds-api.com takes the first branch of the if-elif chain, so
the outbound request carries only the User-Agent header and neither of the
two designated API key headers; the claim as stated is false at this
input. -/
theorem api_sports_counterexample :
    strIn "api-sports.io" "https://the-odds-api.com/v4?x=api-sports.io" = true ∧
    (do_GET (fun _ _ => UpstreamResult.success [] none) (fun _ _ => [])
        "/?url=https://the-odds-api.com/v4?x=api-sports.io").2 =
      some ("https://the-odds-api.com/v4?x=api-sports.io",
            [("User-Agent", "IBY-NFL-Analytics/1.0")]) := by
  decide

/-- C3 amended: the outbound request of do_GET carries the two designated
API key headers when the target URL contains api-sports.io and does not
contain the earlier-matched substring the-odds-api.com; and for every target
URL not containing api-sports.io it carries neither of them. -/
theorem api_sports_amended
    (fetch : String → List (String × String) → UpstreamResult)
    (errPage : Nat → String → List Nat) (path target_url : String)
    (rest : List String)
    (hq : qsGet (urlparseQuery path) "url" = target_url :: rest) :
    ∃ hs, (do_GET fetch errPage path).2 = some (target_url, hs) ∧
      (strIn "the-odds-api.com" target_url = false →
       strIn "api-sports.io" target_url = true →
         ("x-rapidapi-key", "47647545b8ddeb4b557a8482be930f09") ∈ hs ∧
         ("x-rapidapi-host", "v1.american-football.api-sports.io") ∈ hs) ∧
      (strIn "api-sports.io" target_url = false →
         "x-rapidapi-key" ∉ hs.map Prod.fst ∧
         "x-rapidapi-host" ∉ hs.map Prod.fst) := by
  refine ⟨buildHeaders target_url, do_GET_outbound fetch errPage path target_url rest hq, ?_, ?_⟩
  · intro h1 h2
    simp [buildHeaders, h1, h2]
  · intro h2
    by_cases h1 : strIn "the-odds-api.com" target_url <;>
      by_cases h3 : strIn "sportsradar.com" target_url <;>
        simp [buildHeaders, h1, h2, h3]

/-- C3 amended witness at a concrete input. -/
theorem api_sports_amended_witness :
    ∃ hs, (do_GET (fun _ _ => UpstreamResult.urlError) (fun _ _ => [])
        "/?url=https://v1.american-football.api-sports.io/games").2 =
      some ("https://v1.american-football.api-sports.io/games", hs) ∧
      (strIn "the-odds-api.com" "https://v1.american-football.api-sports.io/games" = false →
       strIn "api-sports.io" "https://v1.american-football.api-sports.io/games" = true →
         ("x-rapidapi-key", "47647545b8ddeb4b557a8482be930f09") ∈ hs ∧
         ("x-rapidapi-host", "v1.american-football.api-sports.io") ∈ hs) ∧
      (strIn "api-sports.io" "https://v1.american-football.api-sports.io/games" = false →
         "x-rapidapi-key" ∉ hs.map Prod.fst ∧
         "x-rapidapi-host" ∉ hs.map Prod.fst) :=
  api_sports_amended (fun _ _ => UpstreamResult.urlError) (fun _ _ => [])
    "/?url=https://v1.american-football.api-sports.io/games"
    "https://v1.american-football.api-sports.io/games" [] (by decide)

/-- C5 witness at a concrete input, covering both content-type cases. -/
theorem success_relay_spec_witness :
    ((do_GET (fun _ _ => UpstreamResult.success [123, 34, 97, 34, 58, 49, 125] (some "application/json"))
        (fun _ _ => []) "/?url=https://example.com/data.json").1.status = some 200 ∧
     (do_GET (fun _ _ => UpstreamResult.success [123, 34, 97, 34, 58, 49, 125] (some "application/json"))
        (fun _ _ => []) "/?url=https://example.com/data.json").1.body = [123, 34, 97, 34, 58, 49, 125] ∧
     ("Access-Control-Allow-Origin", "*") ∈
       (do_GET (fun _ _ => UpstreamResult.success [123, 34, 97, 34, 58, 49, 125] (some "application/json"))
          (fun _ _ => []) "/?url=https://example.com/data.json").1.headers) ∧
    ("Content-Type", "application/json") ∈
      (do_GET (fun _ _ => UpstreamResult.success [9] none)
         (fun _ _ => []) "/?url=https://example.com/plain").1.headers := by
  constructor
  · obtain ⟨h1, h2, h3, _, _⟩ :=
      success_relay_spec (fun _ _ => UpstreamResult.success [123, 34, 97, 34, 58, 49, 125] (some "application/json"))
        (fun _ _ => []) "/?url=https://example.com/data.json" "https://example.com/data.json" []
        [123, 34, 97, 34, 58, 49, 125] (some "application/json") (by decide) rfl
    exact ⟨h1, h2, h3⟩
  · exact (success_relay_spec (fun _ _ => UpstreamResult.success [9] none)
      (fun _ _ => []) "/?url=https://example.com/plain" "https://example.com/plain" []
      [9] none (by decide) rfl).2.2.2.2 rfl

/-- C4 witness at concrete inputs, one per caught error class. -/
theorem error_paths_spec_witness :
    ((do_GET (fun _ _ => UpstreamResult.httpError 404) (fun _ _ => []) "/?url=https://example.com/a").1.status = some 404 ∧
     ("Access-Control-Allow-Origin", "*") ∈
       (do_GET (fun _ _ => UpstreamResult.httpError 404) (fun _ _ => []) "/?url=https://example.com/a").1.headers) ∧
    ((do_GET (fun _ _ => UpstreamResult.urlError) (fun _ _ => []) "/?url=https://example.com/a").1.status = some 500 ∧
     ("Access-Control-Allow-Origin", "*") ∈
       (do_GET (fun _ _ => UpstreamResult.urlError) (fun _ _ => []) "/?url=https://example.com/a").1.headers) ∧
    ((do_GET (fun _ _ => UpstreamResult.otherError) (fun _ _ => []) "/?url=https://example.com/a").1.status = some 500 ∧
     ("Access-Control-Allow-Origin", "*") ∈
       (do_GET (fun _ _ => UpstreamResult.otherError) (fun _ _ => []) "/?url=https://example.com/a").1.headers) :=
  ⟨(error_paths_spec (fun _ _ => UpstreamResult.httpError 404) (fun _ _ => [])
      "/?url=https://example.com/a" "https://example.com/a" [] (by decide)).1 404 rfl,
   (error_paths_spec (fun _ _ => UpstreamResult.urlError) (fun _ _ => [])
      "/?url=https://example.com/a" "https://example.com/a" [] (by decide)).2.1 rfl,
   (error_paths_spec (fun _ _ => UpstreamResult.otherError) (fun _ _ => [])
      "/?url=https://example.com/a" "https://example.com/a" [] (by decide)).2.2 rfl⟩

/-- C7 witness at a concrete input matching none of the three rules. -/
theorem default_headers_spec_witness :
    (do_GET (fun _ _ => UpstreamResult.success [] none) (fun _ _ => [])
        "/?url=https://site.espn.com/scores").2 =
      some ("https://site.espn.com/scores", [("User-Agent", "IBY-NFL-Analytics/1.0")]) :=
  default_headers_spec (fun _ _ => UpstreamResult.success [] none) (fun _ _ => [])
    "/?url=https://site.espn.com/scores" "https://site.espn.com/scores" []
    (by decide) (by decide) (by decide) (by decide)

/-- C8 witness: a duplicated url parameter forwards to the first value, and
the response equals the one for a request carrying only that first value. -/
theorem first_url_occurrence_spec_witness :
    (do_GET (fun _ _ => UpstreamResult.success [5] none) (fun _ _ => []) "/?url=a&url=b").2 =
      some ("a", buildHeaders "a") ∧
    do_GET (fun _ _ => UpstreamResult.success [5] none) (fun _ _ => []) "/?url=a&url=b" =
      do_GET (fun _ _ => UpstreamResult.success [5] none) (fun _ _ => []) "/?url=a" :=
  first_url_occurrence_spec (fun _ _ => UpstreamResult.success [5] none) (fun _ _ => [])
    "/?url=a&url=b" "/?url=a" "a" ["b"] [] (by decide) (by decide)

/-- The scan returns a port exactly when that port is the smallest bindable
one in the scanned window. -/
lemma findLoop_some_iff (c : Nat → Bool) :
    ∀ (n start p : Nat), findLoop c start n = some p ↔
      (start ≤ p ∧ p < start + n ∧ c p = true ∧
       ∀ q, start ≤ q → q < p → c q = false) := by
  intro n
  induction n with
  | zero =>
    intro start p
    constructor
    · intro h
      simp [findLoop] at h
    · rintro ⟨h1, h2, -, -⟩
      omega
  | succ n ih =>
    intro start p
    constructor
    · intro h
      simp only [findLoop] at h
      by_cases hc : c start = true
      · rw [if_pos hc] at h
        injection h with h'
        subst h'
        exact ⟨Nat.le_refl _, by omega, hc, fun q hq1 hq2 => absurd hq1 (by omega)⟩
      · rw [if_neg hc] at h
        obtain ⟨h1, h2, h3, h4⟩ := (ih (start + 1) p).mp h
        refine ⟨by omega, by omega, h3, ?_⟩
        intro q hq1 hq2
        rcases Nat.eq_or_lt_of_le hq1 with he | hlt
        · subst he
          exact Bool.eq_false_iff.mpr hc
        · exact h4 q (by omega) hq2
    · rintro ⟨h1, h2, h3, h4⟩
      simp only [findLoop]
      by_cases hc : c start = true
      · rw [if_pos hc]
        have hps : p = start := by
          by_contra hne
          have hlt : start < p := by omega
          have := h4 start (Nat.le_refl _) hlt
          rw [this] at hc
          exact Bool.false_ne_true hc
        rw [hps]
      · rw [if_neg hc]
        have hps : p ≠ start := by
          intro he
          rw [he] at h3
          exact hc h3
        refine (ih (start + 1) p).mpr ⟨by omega, by omega, h3, ?_⟩
        intro q hq1 hq2
        exact h4 q (by omega) hq2

/-- The scan fails exactly when no port in the scanned window is bindable. -/
lemma findLoop_none_iff (c : Nat → Bool) :
    ∀ (n start : Nat), findLoop c start n = none ↔
      ∀ q, start ≤ q → q < start + n → c q = false := by
  intro n
  induction n with
  | zero =>
    intro start
    simp [findLoop]
    intro q h1 h2
    omega
  | succ n ih =>
    intro start
    constructor
    · intro h q hq1 hq2
      simp only [findLoop] at h
      by_cases hc : c start = true
      · rw [if_pos hc] at h
        exact absurd h (by simp)
      · rw [if_neg hc] at h
        rcases Nat.eq_or_lt_of_le hq1 with he | hlt
        · subst he
          exact Bool.eq_false_iff.mpr hc
        · exact (ih (start + 1)).mp h q (by omega) (by omega)
    · intro h
      simp only [findLoop]
      have hc : c start = false := h start (Nat.le_refl _) (by omega)
      rw [if_neg (by simp [hc])]
      exact (ih (start + 1)).mpr fun q hq1 hq2 => h q (by omega) (by omega)

/-- Every probed port lies in the scanned window. -/
lemma probedPorts_mem (c : Nat → Bool) :
    ∀ (n start q : Nat), q ∈ probedPorts c start n → start ≤ q ∧ q < start + n := by
  intro n
  induction n with
  | zero =>
    intro start q h
    simp [probedPorts] at h
  | succ n ih =>
    intro start q h
    simp only [probedPorts] at h
    by_cases hc : c start = true
    · rw [if_pos hc] at h
      simp at h
      omega
    · rw [if_neg hc] at h
      rcases List.mem_cons.mp h with he | hm
      · omega
      · have := ih (start + 1) q hm
        omega

/-- C9: find_available_port returns exactly the smallest port of the range
from start_port to start_port plus 100 (exclusive) that the bind oracle
accepts, returns RuntimeError exactly when no port of that range is
bindable, and every port the loop probes lies inside that range. -/
theorem find_available_port_spec (canBind : Nat → Bool) (start_port : Nat) :
    (∀ p, find_available_port canBind start_port = PortResult.found p ↔
      (start_port ≤ p ∧ p < start_port + 100 ∧ canBind p = true ∧
       ∀ q, start_port ≤ q → q < p → canBind q = false)) ∧
    (find_available_port canBind start_port = PortResult.runtimeError ↔
      ∀ q, start_port ≤ q → q < start_port + 100 → canBind q = false) ∧
    (∀ q, q ∈ probedPorts canBind start_port 100 →
      start_port ≤ q ∧ q < start_port + 100) := by
  refine ⟨?_, ?_, probedPorts_mem canBind 100 start_port⟩
  · intro p
    unfold find_available_port
    cases hfl : findLoop canBind start_port 100 with
    | none =>
      simp only [reduceCtorEq, false_iff]
      rintro ⟨h1, h2, h3, -⟩
      have := (findLoop_none_iff canBind 100 start_port).mp hfl p h1 h2
      rw [this] at h3
      exact Bool.false_ne_true h3
    | some x =>
      have hx := (findLoop_some_iff canBind 100 start_port x).mp hfl
      constructor
      · intro h
        injection h with h'
        subst h'
        exact hx
      · rintro ⟨h1, h2, h3, h4⟩
        obtain ⟨g1, g2, g3, g4⟩ := hx
        have : x = p := by
          by_contra hne
          rcases Nat.lt_or_ge x p with hlt | hge
          · have := h4 x g1 hlt
            rw [this] at g3
            exact Bool.false_ne_true g3
          · have hlt : p < x := by omega
            have := g4 p h1 hlt
            rw [this] at h3
            exact Bool.false_ne_true h3
        rw [this]
  · unfold find_available_port
    cases hfl : findLoop canBind start_port 100 with
    | none =>
      simp only [true_iff]
      exact (findLoop_none_iff canBind 100 start_port).mp hfl
    | some x =>
      simp only [reduceCtorEq, false_iff]
      intro h
      have hx := (findLoop_some_iff canBind 100 start_port x).mp hfl
      have := h x hx.1 hx.2.1
      rw [this] at hx
      exact Bool.false_ne_true hx.2.2.1

/-- C9 witness at a concrete oracle and range. -/
theorem find_available_port_spec_witness :
    find_available_port (fun p => p == 3005) 3000 = PortResult.found 3005 ∧
    (3000 ≤ 3001 ∧ 3001 < 3000 + 100) :=
  ⟨by decide,
   (find_available_port_spec (fun p => p == 3005) 3000).2.2 3001 (by decide)⟩

/-- C10: the override raises ValueError on every call. The inherited
SimpleHTTPRequestHandler.guess_type returns a bare mimetype string such as
the nine-character text/html, and the first statement of the override
unpacks it into the two names mimetype and encoding, which fails for every
string whose length is not two; so at the failing input the handler yields
the modelled ValueError (none) instead of the pair the claim describes, for
an html, a css, a js and a plain path alike. -/
theorem guess_type_code_bug :
    guess_type (fun _ => "text/html") "index.html" = none ∧
    guess_type (fun _ => "text/css") "style.css" = none ∧
    guess_type (fun _ => "application/javascript") "app.js" = none ∧
    guess_type (fun _ => "image/png") "logo.png" = none := by
  decide
